import Mathlib

/-!
Shallow embedding of `src/main.py` (Server Time API): the UTC time-string
parser `_parse_utc_time`, the place resolver `_city_to_timezone`, the
`/time/convert` endpoint body `convert_time`, and the best-effort log
emitter `send_log_to_loki`.  Machine-level details (HTTP transport, the
actual geocoder network call, the tz database, the event loop) are
represented by explicit function parameters; everything the Python code
itself computes is translated directly.
-/

deriving instance DecidableEq for Except

namespace ServerTimeAPI

/-! ### Python string helpers -/

/-- Whitespace characters stripped by Python `str.strip()` (ASCII subset,
which covers every input class the service documents). -/
def pyWhitespace (c : Char) : Bool :=
  c = ' ' || c = '\t' || c = '\n' || c = '\r' || c = '\x0b' || c = '\x0c'

/-- Model of Python `str.strip()` on a character list. -/
def pyStripChars (s : List Char) : List Char :=
  ((s.dropWhile pyWhitespace).reverse.dropWhile pyWhitespace).reverse

/-- Model of Python `str.strip()`. -/
def pyStrip (s : String) : String :=
  String.mk (pyStripChars s.toList)

/-- Model of Python `value.replace("Z", "+00:00")` (replaces every
occurrence of the single character `Z`, as `str.replace` does). -/
def replaceZ : List Char → List Char
  | [] => []
  | c :: r => (if c = 'Z' then "+00:00".toList else [c]) ++ replaceZ r

/-- Numeric value of a decimal digit character. -/
def digitVal (c : Char) : Nat := c.toNat - 48

/-- Left-pad the decimal rendering of `n` with zeros to width `w`
(Python `%04d` / `%02d` style formatting). -/
def padNum (w n : Nat) : String :=
  let s := toString n
  String.mk (List.replicate (w - s.length) '0') ++ s

/-! ### Datetime data model (mirrors `datetime.datetime`) -/

/-- Model of a concrete `tzinfo` attached to a Python datetime: a fixed
UTC offset in minutes plus the name reported by `tzname()` (used by
`%Z`).  Covers `timezone.utc`, `timezone(timedelta(...))` produced by
`fromisoformat`, and a `ZoneInfo` at a fixed instant. -/
structure TZInfo where
  offsetMinutes : Int
  name : String
deriving DecidableEq

/-- Model of `datetime.timezone.utc`. -/
def utcTZ : TZInfo := ⟨0, "UTC"⟩

/-- Model of `datetime.datetime`: civil fields plus an optional `tzinfo`
(`none` models a naive datetime). -/
structure PyDatetime where
  year : Nat
  month : Nat
  day : Nat
  hour : Nat
  minute : Nat
  second : Nat
  microsecond : Nat
  tzinfo : Option TZInfo
deriving DecidableEq

/-- Model of `dt.replace(tzinfo=tz)`. -/
def PyDatetime.withTZ (dt : PyDatetime) (tz : TZInfo) : PyDatetime :=
  { dt with tzinfo := some tz }

/-- Gregorian leap-year test. -/
def isLeap (y : Nat) : Bool :=
  y % 4 = 0 && (y % 100 ≠ 0 || y % 400 = 0)

/-- Days in a month of the proleptic Gregorian calendar. -/
def daysInMonth (y m : Nat) : Nat :=
  if m = 2 then (if isLeap y then 29 else 28)
  else if m = 4 || m = 6 || m = 9 || m = 11 then 30
  else 31

/-- Day number of a civil date, counted from 0000-03-01 (standard
era/year-of-era decomposition; valid for `year ≥ 1`, which is
`datetime.MINYEAR`). -/
def daysFromCivil (y m d : Nat) : Nat :=
  let y2 := if m ≤ 2 then y - 1 else y
  let era := y2 / 400
  let yoe := y2 % 400
  let mp := (m + 9) % 12
  let doy := (153 * mp + 2) / 5 + (d - 1)
  let doe := yoe * 365 + yoe / 4 - yoe / 100 + doy
  era * 146097 + doe

/-- Inverse of `daysFromCivil`: civil date of a day number. -/
def civilFromDays (z : Nat) : Nat × Nat × Nat :=
  let era := z / 146097
  let doe := z % 146097
  let yoe := (doe - doe / 1460 + doe / 36524 - doe / 146096) / 365
  let y := yoe + era * 400
  let doy := doe - (365 * yoe + yoe / 4 - yoe / 100)
  let mp := (5 * doy + 2) / 153
  let d := doy - (153 * mp + 2) / 5 + 1
  let m := if mp < 10 then mp + 3 else mp - 9
  (if m ≤ 2 then y + 1 else y, m, d)

/-- Model of `dt.astimezone(target)` for an aware `dt` and a
fixed-offset target zone: shift the civil fields by the offset
difference and attach the target `tzinfo`.  (`convert_time` only ever
calls this on aware datetimes, see `parse_utc_time_always_aware`.) -/
def PyDatetime.astimezone (dt : PyDatetime) (target : TZInfo) : PyDatetime :=
  let selfOff : Int := (dt.tzinfo.map TZInfo.offsetMinutes).getD 0
  let total : Int := (daysFromCivil dt.year dt.month dt.day * 1440
    + dt.hour * 60 + dt.minute : Nat)
  let sh := (total - selfOff + target.offsetMinutes).toNat
  let days := sh / 1440
  let rem := sh % 1440
  let c := civilFromDays days
  ⟨c.1, c.2.1, c.2.2, rem / 60, rem % 60, dt.second, dt.microsecond, some target⟩

/-- UTC offset rendered as `±HH:MM` (the suffix `datetime.isoformat`
prints for an aware value with a whole-minute offset). -/
def offsetToIso (off : Int) : String :=
  (if off < 0 then "-" else "+") ++ padNum 2 (off.natAbs / 60) ++ ":" ++ padNum 2 (off.natAbs % 60)

/-- Model of `dt.isoformat()`: `YYYY-MM-DDTHH:MM:SS[.ffffff][±HH:MM]`
(microseconds omitted when zero, offset omitted when naive). -/
def PyDatetime.isoformat (dt : PyDatetime) : String :=
  padNum 4 dt.year ++ "-" ++ padNum 2 dt.month ++ "-" ++ padNum 2 dt.day ++ "T"
    ++ padNum 2 dt.hour ++ ":" ++ padNum 2 dt.minute ++ ":" ++ padNum 2 dt.second
    ++ (if dt.microsecond = 0 then "" else "." ++ padNum 6 dt.microsecond)
    ++ (match dt.tzinfo with
        | none => ""
        | some tz => offsetToIso tz.offsetMinutes)

/-- Model of `dt.strftime("%Y-%m-%d %H:%M:%S %Z")` as used for
`converted_time_local` (`%Z` prints `tzname()`, empty when naive). -/
def PyDatetime.strftimeLocal (dt : PyDatetime) : String :=
  padNum 4 dt.year ++ "-" ++ padNum 2 dt.month ++ "-" ++ padNum 2 dt.day ++ " "
    ++ padNum 2 dt.hour ++ ":" ++ padNum 2 dt.minute ++ ":" ++ padNum 2 dt.second
    ++ " " ++ (match dt.tzinfo with | none => "" | some tz => tz.name)

/-! ### Model of `datetime.strptime` for the directives the service uses

Python's `_strptime` compiles a format into a regular expression:
`%Y` is exactly four digits; `%m`/`%d`/`%H`/`%M`/`%S` are one- or
two-digit alternations with the ranges below; a literal space matches
one or more whitespace characters; matching is case-insensitive (so a
literal `T` also matches `t`); the whole string must be consumed; and
the resulting field values must survive the `datetime(...)`
constructor (which rejects year 0, day overflow and seconds 60/61). -/

/-- One directive of a strptime format string. -/
inductive Directive
  | dash | colon | sepT | ws
  | year4 | month2 | day2 | hour2 | minute2 | second2
deriving DecidableEq

/-- Parsed field accumulator with `strptime` defaults
(year 1900, month 1, day 1, midnight). -/
structure StrpAcc where
  y : Nat := 1900
  m : Nat := 1
  d : Nat := 1
  hh : Nat := 0
  mm : Nat := 0
  ss : Nat := 0
deriving DecidableEq

/-- Read a one- or two-digit field the way Python's strptime regex
alternations do: a two-digit match is taken when its value lies in
`[lo2, hi2]`, otherwise a single digit is taken when `ok1` accepts it.
(With non-digit literals separating all fields, this is equivalent to
the regex with backtracking.) -/
def readField (lo2 hi2 : Nat) (ok1 : Nat → Bool) : List Char → Option (Nat × List Char)
  | c1 :: c2 :: rest =>
    if c1.isDigit && c2.isDigit then
      let v := digitVal c1 * 10 + digitVal c2
      if lo2 ≤ v && v ≤ hi2 then some (v, rest)
      else if ok1 (digitVal c1) then some (digitVal c1, c2 :: rest) else none
    else if c1.isDigit && ok1 (digitVal c1) then some (digitVal c1, c2 :: rest) else none
  | [c1] => if c1.isDigit && ok1 (digitVal c1) then some (digitVal c1, []) else none
  | [] => none

/-- Read exactly four digits (`%Y`). -/
def readYear4 : List Char → Option (Nat × List Char)
  | a :: b :: c :: d :: rest =>
    if a.isDigit && b.isDigit && c.isDigit && d.isDigit then
      some (digitVal a * 1000 + digitVal b * 100 + digitVal c * 10 + digitVal d, rest)
    else none
  | _ => none

/-- Execute one strptime directive on the remaining input. -/
def stepDirective : Directive → StrpAcc → List Char → Option (StrpAcc × List Char)
  | .dash, acc, c :: r => if c = '-' then some (acc, r) else none
  | .colon, acc, c :: r => if c = ':' then some (acc, r) else none
  | .sepT, acc, c :: r => if c = 'T' || c = 't' then some (acc, r) else none
  | .ws, acc, c :: r =>
      if pyWhitespace c then some (acc, r.dropWhile pyWhitespace) else none
  | .year4, acc, cs => (readYear4 cs).map fun p => ({ acc with y := p.1 }, p.2)
  | .month2, acc, cs =>
      (readField 1 12 (fun v => 1 ≤ v) cs).map fun p => ({ acc with m := p.1 }, p.2)
  | .day2, acc, cs =>
      (readField 1 31 (fun v => 1 ≤ v) cs).map fun p => ({ acc with d := p.1 }, p.2)
  | .hour2, acc, cs =>
      (readField 0 23 (fun _ => true) cs).map fun p => ({ acc with hh := p.1 }, p.2)
  | .minute2, acc, cs =>
      (readField 0 59 (fun _ => true) cs).map fun p => ({ acc with mm := p.1 }, p.2)
  | .second2, acc, cs =>
      (readField 0 61 (fun _ => true) cs).map fun p => ({ acc with ss := p.1 }, p.2)
  | _, _, [] => none

/-- Run a whole format; the entire input must be consumed
(strptime raises `ValueError` on unconverted trailing data). -/
def runDirectives : List Directive → StrpAcc → List Char → Option StrpAcc
  | [], acc, [] => some acc
  | [], _, _ :: _ => none
  | dir :: ds, acc, cs =>
    match stepDirective dir acc cs with
    | none => none
    | some (acc2, rest) => runDirectives ds acc2 rest

/-- Model of `datetime.strptime(value, fmt)` for the service's formats:
run the directives, then apply the `datetime(...)` constructor checks
(year ≥ 1, day within month, seconds ≤ 59).  Returns a naive datetime
with microsecond 0, as strptime does for these formats. -/
def strptimeChars (fmt : List Directive) (cs : List Char) : Option PyDatetime :=
  match runDirectives fmt {} cs with
  | none => none
  | some a =>
    if 1 ≤ a.y && a.d ≤ daysInMonth a.y a.m && a.ss ≤ 59 then
      some ⟨a.y, a.m, a.d, a.hh, a.mm, a.ss, 0, none⟩
    else none

/-! ### The format tuples of `src/main.py` lines 29–35 -/

/-- Directive list of `"%Y-%m-%d %H:%M:%S"`. -/
def fmtFullSpaceSec : List Directive :=
  [.year4, .dash, .month2, .dash, .day2, .ws, .hour2, .colon, .minute2, .colon, .second2]

/-- Directive list of `"%Y-%m-%dT%H:%M:%S"`. -/
def fmtFullTSec : List Directive :=
  [.year4, .dash, .month2, .dash, .day2, .sepT, .hour2, .colon, .minute2, .colon, .second2]

/-- Directive list of `"%Y-%m-%d %H:%M"`. -/
def fmtFullSpaceMin : List Directive :=
  [.year4, .dash, .month2, .dash, .day2, .ws, .hour2, .colon, .minute2]

/-- Directive list of `"%Y-%m-%dT%H:%M"` — NOT present in the source's
`UTC_TIME_FORMATS`; used only to state what the spec's wording would
require. -/
def fmtFullTMin : List Directive :=
  [.year4, .dash, .month2, .dash, .day2, .sepT, .hour2, .colon, .minute2]

/-- Directive list of `"%Y-%m-%d"`. -/
def fmtDateOnly : List Directive :=
  [.year4, .dash, .month2, .dash, .day2]

/-- Directive list of `"%H:%M:%S"`. -/
def fmtTimeHMS : List Directive :=
  [.hour2, .colon, .minute2, .colon, .second2]

/-- Directive list of `"%H:%M"`. -/
def fmtTimeHM : List Directive :=
  [.hour2, .colon, .minute2]

/-- `UTC_TIME_FORMATS` of `src/main.py` (line 29), in source order. -/
def UTC_TIME_FORMATS : List (List Directive) :=
  [fmtFullSpaceSec, fmtFullTSec, fmtFullSpaceMin, fmtDateOnly]

/-- `UTC_TIME_ONLY_FORMATS` of `src/main.py` (line 35), in source order. -/
def UTC_TIME_ONLY_FORMATS : List (List Directive) :=
  [fmtTimeHMS, fmtTimeHM]

/-- First format of the list that strptime-matches the input — the
`for fmt in ...: try ... except ValueError: continue` loops of
`_parse_utc_time`. -/
def firstParse (fmts : List (List Directive)) (cs : List Char) : Option PyDatetime :=
  match fmts with
  | [] => none
  | f :: rest =>
    match strptimeChars f cs with
    | some dt => some dt
    | none => firstParse rest cs

/-! ### Model of `datetime.fromisoformat`

The strict ISO-8601 grammar of CPython's `datetime.fromisoformat` for
the forms this service can meet (the CPython ≤3.10 grammar):
`YYYY-MM-DD` optionally followed by one separator character and
`HH[:MM[:SS[.fff|.ffffff]]][±HH:MM]`, with range validation done by the
`datetime`/`timezone` constructors. -/

/-- Read exactly two digits. -/
def read2 : List Char → Option (Nat × List Char)
  | a :: b :: rest =>
    if a.isDigit && b.isDigit then some (digitVal a * 10 + digitVal b, rest) else none
  | _ => none

/-- Read an exact run of `n` digits as a number (`none` if any of the
next `n` characters is missing or not a digit). -/
def readDigits : Nat → List Char → Option (Nat × List Char)
  | 0, cs => some (0, cs)
  | n + 1, c :: cs =>
    if c.isDigit then
      (readDigits n cs).map fun p => (digitVal c * 10 ^ n + p.1, p.2)
    else none
  | _ + 1, [] => none

/-- Parse the `±HH:MM` timezone suffix; builds the
`timezone(timedelta(...))` value, whose `tzname()` is `UTC` for a zero
offset and `UTC±HH:MM` otherwise. -/
def parseTZSuffix : List Char → Option TZInfo
  | sign :: rest =>
    if sign = '+' || sign = '-' then
      match read2 rest with
      | some (h, ':' :: r2) =>
        match read2 r2 with
        | some (mi, []) =>
          if h ≤ 23 && mi ≤ 59 then
            let off : Int := if sign = '-' then -((h * 60 + mi : Nat) : Int) else (h * 60 + mi : Nat)
            if h = 0 && mi = 0 then some utcTZ
            else some ⟨off, "UTC" ++ String.mk [sign] ++ padNum 2 h ++ ":" ++ padNum 2 mi⟩
          else none
        | _ => none
      | _ => none
    else none
  | [] => none

/-- Parse the fractional-seconds suffix (the `.` already consumed):
exactly three or six digits, scaled to microseconds. -/
def parseFrac (cs : List Char) : Option (Nat × List Char) :=
  match readDigits 6 cs with
  | some (v, rest) => some (v, rest)
  | none =>
    match readDigits 3 cs with
    | some (v, rest) => some (v * 1000, rest)
    | none => none

/-- Parse the time-of-day part of an ISO string (everything after the
separator character): `HH[:MM[:SS[.frac]]]` plus optional offset. -/
def parseISOTime (cs : List Char) : Option (Nat × Nat × Nat × Nat × Option TZInfo) :=
  match read2 cs with
  | none => none
  | some (h, rest) =>
    let finish : Nat → Nat → Nat → List Char → Option (Nat × Nat × Nat × Nat × Option TZInfo) :=
      fun mi s us tail =>
        match tail with
        | [] => some (h, mi, s, us, none)
        | _ =>
          match parseTZSuffix tail with
          | some tz => some (h, mi, s, us, some tz)
          | none => none
    match rest with
    | ':' :: r1 =>
      match read2 r1 with
      | none => none
      | some (mi, r2) =>
        match r2 with
        | ':' :: r3 =>
          match read2 r3 with
          | none => none
          | some (s, r4) =>
            match r4 with
            | '.' :: r5 =>
              match parseFrac r5 with
              | none => none
              | some (us, r6) => finish mi s us r6
            | _ => finish mi s 0 r4
        | _ => finish mi 0 0 r2
    | _ => finish 0 0 0 rest

/-- Model of `datetime.fromisoformat` on a character list. -/
def fromisoChars (cs : List Char) : Option PyDatetime :=
  match readDigits 4 cs with
  | none => none
  | some (y, r1) =>
    match r1 with
    | '-' :: r2 =>
      match read2 r2 with
      | none => none
      | some (mo, r3) =>
        match r3 with
        | '-' :: r4 =>
          match read2 r4 with
          | none => none
          | some (d, r5) =>
            if 1 ≤ y && 1 ≤ mo && mo ≤ 12 && 1 ≤ d && d ≤ daysInMonth y mo then
              match r5 with
              | [] => some ⟨y, mo, d, 0, 0, 0, 0, none⟩
              | _sep :: timeCs =>
                match parseISOTime timeCs with
                | none => none
                | some (h, mi, s, us, tz) =>
                  if h ≤ 23 && mi ≤ 59 && s ≤ 59 then
                    some ⟨y, mo, d, h, mi, s, us, tz⟩
                  else none
            else none
        | _ => none
    | _ => none

/-- Line 166 of `src/main.py`:
`datetime.fromisoformat(value.replace("Z", "+00:00"))`. -/
def isoFallbackChars (cs : List Char) : Option PyDatetime :=
  fromisoChars (replaceZ cs)

/-! ### `_parse_utc_time` (`src/main.py` lines 148–172) -/

/-- Error raised by the model in place of a Python exception: either a
FastAPI `HTTPException(status_code, detail)`, or any other exception
(class name and message) propagating uncaught. -/
inductive PyError
  | httpException (status : Nat) (detail : String)
  | raised (exnClass : String) (msg : String)
deriving DecidableEq

/-- The 422 detail of `_parse_utc_time` (lines 169–172). -/
def parseErrorDetail : String :=
  "Не удалось разобрать время. Примеры: 15:00, 2025-02-04 12:00:00, 2025-02-04T12:00:00"

/-- Model of `_parse_utc_time(value)`.  `now` is the value of
`datetime.now(timezone.utc)` at request time (an aware UTC datetime),
used by the time-only branch. -/
def parse_utc_time (now : PyDatetime) (value : String) : Except PyError PyDatetime :=
  let cs := pyStripChars value.toList
  match firstParse UTC_TIME_FORMATS cs with
  | some dt => .ok (dt.withTZ utcTZ)
  | none =>
    match firstParse UTC_TIME_ONLY_FORMATS cs with
    | some dt =>
      .ok { now with hour := dt.hour, minute := dt.minute, second := dt.second,
                     microsecond := 0 }
    | none =>
      match isoFallbackChars cs with
      | some dt => .ok (if dt.tzinfo.isSome then dt else dt.withTZ utcTZ)
      | none => .error (.httpException 422 parseErrorDetail)

/-! ### `_city_to_timezone` (`src/main.py` lines 78–98)

The geocoder network call and the `TimezoneFinder` index are external
collaborators; they enter the model as function parameters.  The
location type is abstract (`α` stands for the geopy `Location` with its
latitude/longitude). -/

/-- Outcome of the geopy `geocode` call when it raises: the two
exception classes the source catches, or any other exception
(class name plus message). -/
inductive GeoException
  | geocoderTimedOut (msg : String)
  | geocoderUnavailable (msg : String)
  | otherError (exnClass : String) (msg : String)
deriving DecidableEq

/-- The 422 detail for a blank city (line 82). -/
def emptyCityDetail : String := "Укажите название города."

/-- The 422 detail for a city the geocoder cannot find (lines 88–91). -/
def notFoundDetail (city : String) : String :=
  "Город не найден: «" ++ city ++ "». Проверьте написание (например: Екатеринбург, Москва, Нью-Йорк)."

/-- The 422 detail when the timezone index has no entry for the
coordinates (lines 93–97). -/
def noTimezoneDetail (city : String) : String :=
  "Не удалось определить часовой пояс для: «" ++ city ++ "»."

/-- The 503 detail for a geocoder timeout/unavailability (line 86);
`e` is the stringified exception interpolated by the f-string. -/
def geocoderDownDetail (e : String) : String :=
  "Сервис геокодирования недоступен: " ++ e

/-- Model of `_city_to_timezone(city_name)`.  `geocode` models
`_geolocator.geocode` (returning a location, `None`, or raising);
`timezone_at` models `_tzf.timezone_at(lat=..., lng=...)`. -/
def city_to_timezone {α : Type} (geocode : String → Except GeoException (Option α))
    (timezone_at : α → Option String) (city_name : String) : Except PyError String :=
  let city := pyStrip city_name
  if city = "" then .error (.httpException 422 emptyCityDetail)
  else
    match geocode city with
    | .error (.geocoderTimedOut m) => .error (.httpException 503 (geocoderDownDetail m))
    | .error (.geocoderUnavailable m) => .error (.httpException 503 (geocoderDownDetail m))
    | .error (.otherError n m) => .error (.raised n m)
    | .ok none => .error (.httpException 422 (notFoundDetail city))
    | .ok (some loc) =>
      match timezone_at loc with
      | none => .error (.httpException 422 (noTimezoneDetail city))
      | some tz => .ok tz

/-! ### `send_log_to_loki` (`src/main.py` lines 42–75) -/

/-- One stream of the Loki push payload: label pairs plus
`[timestamp_ns, line]` value pairs. -/
structure LokiStream where
  stream : List (String × String)
  values : List (List String)
deriving DecidableEq

/-- The Loki push payload: a list of streams (the source always builds
exactly one). -/
structure LokiPayload where
  streams : List LokiStream
deriving DecidableEq

/-- Python `dict` insert-or-overwrite of one key. -/
def dictUpsert (d : List (String × String)) (k v : String) : List (String × String) :=
  if d.any (fun p => p.1 = k) then
    d.map (fun p => if p.1 = k then (k, v) else p)
  else d ++ [(k, v)]

/-- Python `dict.update` with a list of pairs. -/
def dictUpdate (d : List (String × String)) (xs : List (String × String)) :
    List (String × String) :=
  xs.foldl (fun acc kv => dictUpsert acc kv.1 kv.2) d

/-- The payload built by `send_log_to_loki` before posting: labels
`job`/`level`/`endpoint` (the endpoint label falls back to `"/"` when
empty), the optional `env` label from the environment, the extra
keyword labels, and a single `[ts_nano, message]` value. -/
def buildLokiPayload (tsNano : Nat) (env : Option String) (message endpointLabel level : String)
    (labels : List (String × String)) : LokiPayload :=
  let base := [("job", "server-time-api"), ("level", level),
    ("endpoint", if endpointLabel = "" then "/" else endpointLabel)]
  let withEnv := match env with
    | some e => base ++ [("env", e)]
    | none => base
  ⟨[⟨dictUpdate withEnv labels, [[toString tsNano, message]]⟩]⟩

/-- Model of `send_log_to_loki`.  `post` models
`httpx.AsyncClient(timeout=2.0).post(LOKI_URL, json=payload)`: it
either returns an HTTP status code or fails (network error, timeout —
any exception).  The source wraps its whole body in
`try: ... except Exception: pass`, so the function returns normally on
every outcome; a result of `.error` would model an exception
propagating to the caller, and never occurs. -/
def send_log_to_loki (post : LokiPayload → Except String Nat) (tsNano : Nat)
    (env : Option String) (message endpointLabel level : String)
    (labels : List (String × String)) : Except String Unit :=
  let payload := buildLokiPayload tsNano env message endpointLabel level labels
  match post payload with
  | .ok _status => .ok ()
  | .error _exn => .ok ()

/-! ### `convert_time` (`src/main.py` lines 175–240) -/

/-- Model of the `/time/convert` endpoint body.  `now` is
`datetime.now(timezone.utc)` at request time; `geocode`/`timezone_at`
are as in `city_to_timezone`; `zoneinfo` models `ZoneInfo(tz_name)`
evaluated at the converted instant (a fixed-offset snapshot of the tz
database, which is external data).  On success the JSON response body
is the ordered field list of lines 195–201; an `HTTPException` escapes
as `.error`.  `resolve_utc_time` is lines 186–189: absent or blank
`utc_time` means "now". -/
def resolve_utc_time (now : PyDatetime) (utc_time : Option String) :
    Except PyError PyDatetime :=
  match utc_time with
  | none => .ok now
  | some s => if pyStrip s = "" then .ok now else parse_utc_time now s

/-- Model of the `/time/convert` endpoint body (lines 185–201). -/
def convert_time {α : Type} (now : PyDatetime)
    (geocode : String → Except GeoException (Option α))
    (timezone_at : α → Option String) (zoneinfo : String → TZInfo)
    (city : String) (utc_time : Option String) :
    Except PyError (List (String × String)) := do
  let dt_utc ← resolve_utc_time now utc_time
  let tz_name ← city_to_timezone geocode timezone_at city
  let dt_local := dt_utc.astimezone (zoneinfo tz_name)
  pure [("utc_time", dt_utc.isoformat),
        ("city", pyStrip city),
        ("timezone", tz_name),
        ("converted_time", dt_local.isoformat),
        ("converted_time_local", dt_local.strftimeLocal)]

/-- A line of the JSON log record the endpoint ships (stands for the
`json.dumps` call; the claims never inspect this text, only that its
delivery cannot affect the response). -/
def logLineFor (city : String) (utc_time : Option String)
    (resp : Except PyError (List (String × String))) : String :=
  let req := "city=" ++ pyStrip city ++ " utc_time=" ++ (utc_time.getD "(current)")
  match resp with
  | .ok r => "GET /time/convert ok " ++ req ++ " response=" ++ String.intercalate "," (r.map Prod.snd)
  | .error (.httpException s d) => "GET /time/convert error " ++ toString s ++ " " ++ d ++ " " ++ req
  | .error (.raised n m) => "GET /time/convert raised " ++ n ++ " " ++ m ++ " " ++ req

/-- The endpoint together with its fire-and-forget log task
(`asyncio.create_task(send_log_to_loki(...))`): the pair of the HTTP
result and the (detached) log task's outcome.  The task is scheduled
with the arguments of lines 202–218 (success) or 221–239 (error). -/
def convert_time_endpoint {α : Type} (post : LokiPayload → Except String Nat)
    (tsNano : Nat) (env : Option String) (now : PyDatetime)
    (geocode : String → Except GeoException (Option α))
    (timezone_at : α → Option String) (zoneinfo : String → TZInfo)
    (city : String) (utc_time : Option String) :
    Except PyError (List (String × String)) × Except String Unit :=
  let resp := convert_time now geocode timezone_at zoneinfo city utc_time
  let logTask :=
    match resp with
    | .ok r =>
      send_log_to_loki post tsNano env (logLineFor city utc_time (.ok r)) "/time/convert"
        "info" ([("city", pyStrip city)] ++ (match r.lookup "timezone" with
          | some tz => [("timezone", tz)]
          | none => []))
    | .error e =>
      send_log_to_loki post tsNano env (logLineFor city utc_time (.error e)) "/time/convert"
        "error" [("city", pyStrip city),
          ("status_code", match e with
            | .httpException s _ => toString s
            | .raised _ _ => "")]
  (resp, logTask)

/-! ### Auxiliary definitions used by the theorem statements -/

/-- Boolean test that `needle` begins `hay`. -/
def startsWithChars : List Char → List Char → Bool
  | [], _ => true
  | _ :: _, [] => false
  | a :: as, b :: bs => a = b && startsWithChars as bs

/-- Boolean substring test (`needle` occurs somewhere in `hay`),
modelling Python's `in` on strings. -/
def containsChars : List Char → List Char → Bool
  | needle, [] => startsWithChars needle []
  | needle, c :: t => startsWithChars needle (c :: t) || containsChars needle t

/-- First defined element of a list of optional values (the
short-circuit of an ordered sequence of parse attempts). -/
def firstSome {A : Type} : List (Option A) → Option A
  | [] => none
  | some a :: _ => some a
  | none :: rest => firstSome rest

/-- The time-only anchoring of `_parse_utc_time` lines 160–161:
`today.replace(hour=..., minute=..., second=..., microsecond=0)` on
`today = datetime.now(timezone.utc)`. -/
def anchorTimeOnly (now dt : PyDatetime) : PyDatetime :=
  { now with hour := dt.hour, minute := dt.minute, second := dt.second, microsecond := 0 }

/-- The claim's ordered attempt list for `_parse_utc_time` on the
(already stripped) input: the fixed date formats assumed UTC, then the
time-only formats anchored to the current UTC date, then the strict ISO
fallback (naive results assumed UTC). -/
def parseAttempts (now : PyDatetime) (cs : List Char) : List (Option PyDatetime) :=
  (UTC_TIME_FORMATS.map fun f => (strptimeChars f cs).map fun dt => dt.withTZ utcTZ)
    ++ (UTC_TIME_ONLY_FORMATS.map fun f => (strptimeChars f cs).map (anchorTimeOnly now))
    ++ [(isoFallbackChars cs).map fun dt => if dt.tzinfo.isSome then dt else dt.withTZ utcTZ]

/-- The fixed-format list the claim's wording describes — full
date+time formats space- and T-separated, each with and without
seconds, then date-only.  Stated from the spec's words only, for
comparison with the source's `UTC_TIME_FORMATS`, which lacks
`"%Y-%m-%dT%H:%M"`. -/
def claimFixedFormats : List (List Directive) :=
  [fmtFullSpaceSec, fmtFullTSec, fmtFullSpaceMin, fmtFullTMin, fmtDateOnly]

/-- A fixed concrete value of `datetime.now(timezone.utc)` used to
instantiate theorems (2025-06-15 09:30:12.123456 UTC). -/
def nowFix : PyDatetime := ⟨2025, 6, 15, 9, 30, 12, 123456, some utcTZ⟩

/-- Modelled from the spec: the tz database entry for
`Asia/Yekaterinburg` on a winter 2025 date — fixed offset UTC+5
(300 minutes), `tzname()` abbreviation `"+05"`.  The tz database is an
external collaborator, not part of `src/`; the spec states the
hand-computed expectation `17:00:00, UTC+5`. -/
def Asia_Yekaterinburg : TZInfo := ⟨300, "+05"⟩

/-! ### Helper lemmas -/

/-- A list that begins with `a` passes `startsWithChars a`. -/
theorem startsWithChars_append (a b : List Char) : startsWithChars a (a ++ b) = true := by
  induction a with
  | nil => rfl
  | cons c cs ih => simp [startsWithChars, ih]

/-- `containsChars` finds an occurrence at the front. -/
theorem containsChars_here (needle post : List Char) :
    containsChars needle (needle ++ post) = true := by
  cases needle with
  | nil => cases post <;> simp [containsChars, startsWithChars]
  | cons c cs =>
    have h := startsWithChars_append (c :: cs) post
    simp [containsChars]
    exact Or.inl h

/-- `containsChars` finds an occurrence anywhere. -/
theorem containsChars_middle (pre needle post : List Char) :
    containsChars needle (pre ++ needle ++ post) = true := by
  induction pre with
  | nil => simpa using containsChars_here needle post
  | cons c t ih =>
    simp [containsChars]
    exact Or.inr (by simpa [List.append_assoc] using ih)

/-- `String.toList` distributes over concatenation. -/
theorem toList_append (a b : String) : (a ++ b).toList = a.toList ++ b.toList := by
  cases a
  cases b
  rfl

/-! ### Claims about the place resolver -/

/-- C5: for every empty or whitespace-only city input, place resolution
fails with the 422 client-input error, and the outcome is identical for
every geocoder and every timezone index — the geocoder is never
consulted for blank input. -/
theorem city_to_timezone_blank_rejected {α : Type}
    (g1 g2 : String → Except GeoException (Option α)) (t1 t2 : α → Option String)
    (city : String) (h : pyStrip city = "") :
    city_to_timezone g1 t1 city = .error (.httpException 422 emptyCityDetail)
    ∧ city_to_timezone g1 t1 city = city_to_timezone g2 t2 city := by
  constructor <;> simp [city_to_timezone, h]

/-- Witness for `city_to_timezone_blank_rejected` at the whitespace-only
input `"   "` and two different geocoders. -/
theorem city_to_timezone_blank_rejected_witness :
    city_to_timezone (fun _ : String => (Except.ok (some ()) : Except GeoException (Option Unit)))
      (fun _ => some "Europe/Moscow") "   "
      = .error (.httpException 422 emptyCityDetail)
    ∧ city_to_timezone (fun _ : String => (Except.ok (some ()) : Except GeoException (Option Unit)))
        (fun _ => some "Europe/Moscow") "   "
      = city_to_timezone (fun _ : String => (Except.error (.geocoderTimedOut "t") : Except GeoException (Option Unit)))
          (fun _ => none) "   " :=
  city_to_timezone_blank_rejected _ _ _ _ "   " (by decide)

/-- C4: a geocoder timeout and a geocoder unavailability each produce
the 503 service-unavailable error, a no-match result produces the 422
client-input error, and the two statuses are distinct — the failure
kinds are always distinguishable by status. -/
theorem city_to_timezone_unavailable_503 {α : Type}
    (geocode : String → Except GeoException (Option α)) (timezone_at : α → Option String)
    (city m : String) (h : pyStrip city ≠ "") :
    (geocode (pyStrip city) = .error (.geocoderTimedOut m) →
      city_to_timezone geocode timezone_at city = .error (.httpException 503 (geocoderDownDetail m)))
    ∧ (geocode (pyStrip city) = .error (.geocoderUnavailable m) →
      city_to_timezone geocode timezone_at city = .error (.httpException 503 (geocoderDownDetail m)))
    ∧ (geocode (pyStrip city) = .ok none →
      city_to_timezone geocode timezone_at city = .error (.httpException 422 (notFoundDetail (pyStrip city))))
    ∧ (503 : Nat) ≠ 422 := by
  refine ⟨fun hg => ?_, fun hg => ?_, fun hg => ?_, by decide⟩ <;>
    simp [city_to_timezone, h, hg]

/-- Witness for `city_to_timezone_unavailable_503` at the city
`"Москва"` with a timed-out, an unavailable, and a no-match geocoder. -/
theorem city_to_timezone_unavailable_503_witness :
    city_to_timezone (fun _ : String => (Except.error (.geocoderTimedOut "t") : Except GeoException (Option Unit)))
      (fun _ => none) "Москва" = .error (.httpException 503 (geocoderDownDetail "t"))
    ∧ city_to_timezone (fun _ : String => (Except.error (.geocoderUnavailable "u") : Except GeoException (Option Unit)))
        (fun _ => none) "Москва" = .error (.httpException 503 (geocoderDownDetail "u"))
    ∧ city_to_timezone (fun _ : String => (Except.ok none : Except GeoException (Option Unit)))
        (fun _ => none) "Москва" = .error (.httpException 422 (notFoundDetail (pyStrip "Москва"))) :=
  ⟨(city_to_timezone_unavailable_503 _ (fun _ => none) "Москва" "t" (by decide)).1 rfl,
   (city_to_timezone_unavailable_503 _ (fun _ => none) "Москва" "u" (by decide)).2.1 rfl,
   (city_to_timezone_unavailable_503 _ (fun _ => none) "Москва" "m" (by decide)).2.2.1 rfl⟩

/-- C10: only the two specific geocoder exceptions are mapped to 503;
any other exception raised by the geocoder call propagates out of the
resolver unmapped, as itself — it is not an `HTTPException` of any
status at all. -/
theorem city_to_timezone_other_exceptions_uncaught {α : Type}
    (geocode : String → Except GeoException (Option α)) (timezone_at : α → Option String)
    (city n m : String) (h1 : pyStrip city ≠ "")
    (h2 : geocode (pyStrip city) = .error (.otherError n m)) :
    city_to_timezone geocode timezone_at city = .error (.raised n m)
    ∧ ∀ s d, (PyError.raised n m) ≠ PyError.httpException s d := by
  refine ⟨by simp [city_to_timezone, h1, h2], fun s d hc => ?_⟩
  cases hc

/-- Witness for `city_to_timezone_other_exceptions_uncaught` with a
geocoder raising a `GeocoderServiceError`. -/
theorem city_to_timezone_other_exceptions_uncaught_witness :
    city_to_timezone (fun _ : String => (Except.error (.otherError "GeocoderServiceError" "boom") : Except GeoException (Option Unit)))
      (fun _ => none) "Москва" = .error (.raised "GeocoderServiceError" "boom")
    ∧ ∀ s d, (PyError.raised "GeocoderServiceError" "boom") ≠ PyError.httpException s d :=
  city_to_timezone_other_exceptions_uncaught _ (fun _ => none) "Москва"
    "GeocoderServiceError" "boom" (by decide) rfl

/-- C8 counterexample: for the padded input `" Atlantis "` with no
geocoder match, the 422 detail contains the trimmed name `Atlantis`
but does not contain the input string `" Atlantis "` verbatim. -/
theorem city_not_found_detail_not_verbatim :
    city_to_timezone (fun _ : String => (Except.ok none : Except GeoException (Option Unit)))
      (fun _ => none) " Atlantis "
      = .error (.httpException 422 (notFoundDetail "Atlantis"))
    ∧ containsChars " Atlantis ".toList (notFoundDetail "Atlantis").toList = false
    ∧ containsChars "Atlantis".toList (notFoundDetail "Atlantis").toList = true := by
  refine ⟨by decide, by decide, by decide⟩

/-- C8 (amended): when the geocoder has no match, and when the timezone
index cannot classify the returned coordinates, resolution fails with a
422 client-input error whose detail contains the trimmed input place
name. -/
theorem city_errors_name_trimmed_place {α : Type}
    (geocode : String → Except GeoException (Option α)) (timezone_at : α → Option String)
    (city : String) (h : pyStrip city ≠ "") :
    (geocode (pyStrip city) = .ok none →
      ∃ d, city_to_timezone geocode timezone_at city = .error (.httpException 422 d)
        ∧ containsChars (pyStrip city).toList d.toList = true)
    ∧ (∀ loc, geocode (pyStrip city) = .ok (some loc) → timezone_at loc = none →
      ∃ d, city_to_timezone geocode timezone_at city = .error (.httpException 422 d)
        ∧ containsChars (pyStrip city).toList d.toList = true) := by
  constructor
  · intro hg
    refine ⟨notFoundDetail (pyStrip city), by simp [city_to_timezone, h, hg], ?_⟩
    show containsChars (pyStrip city).toList
      ("Город не найден: «" ++ pyStrip city ++ "». Проверьте написание (например: Екатеринбург, Москва, Нью-Йорк).").toList = true
    rw [toList_append, toList_append]
    exact containsChars_middle _ _ _
  · intro loc hg ht
    refine ⟨noTimezoneDetail (pyStrip city), by simp [city_to_timezone, h, hg, ht], ?_⟩
    show containsChars (pyStrip city).toList
      ("Не удалось определить часовой пояс для: «" ++ pyStrip city ++ "».").toList = true
    rw [toList_append, toList_append]
    exact containsChars_middle _ _ _

/-- Witness for `city_errors_name_trimmed_place`: a no-match geocoder at
`"Лондон"` and an unclassifiable-coordinates index at `"Пхукет"`. -/
theorem city_errors_name_trimmed_place_witness :
    (∃ d, city_to_timezone (fun _ : String => (Except.ok none : Except GeoException (Option Unit)))
        (fun _ => none) "Лондон" = .error (.httpException 422 d)
      ∧ containsChars (pyStrip "Лондон").toList d.toList = true)
    ∧ (∃ d, city_to_timezone (fun _ : String => (Except.ok (some ()) : Except GeoException (Option Unit)))
        (fun _ => none) "Пхукет" = .error (.httpException 422 d)
      ∧ containsChars (pyStrip "Пхукет").toList d.toList = true) :=
  ⟨(city_errors_name_trimmed_place _ (fun _ => none) "Лондон" (by decide)).1 rfl,
   (city_errors_name_trimmed_place _ (fun _ => none) "Пхукет" (by decide)).2 () rfl rfl⟩

/-! ### Claims about the log emitter and the conversion endpoint -/

/-- C6: for every delivery outcome of `post` (success with any status,
network error, timeout), `send_log_to_loki` returns normally — it never
propagates an error — and the HTTP result of the `/time/convert`
endpoint is identical no matter which log sink `post` is in effect, so
a log-emission failure cannot change the status or body of the
triggering request. -/
theorem send_log_never_propagates {α : Type}
    (post post2 : LokiPayload → Except String Nat) (tsNano : Nat) (env : Option String)
    (message endpointLabel level : String) (labels : List (String × String))
    (now : PyDatetime) (geocode : String → Except GeoException (Option α))
    (timezone_at : α → Option String) (zoneinfo : String → TZInfo)
    (city : String) (utc_time : Option String) :
    send_log_to_loki post tsNano env message endpointLabel level labels = .ok ()
    ∧ (convert_time_endpoint post tsNano env now geocode timezone_at zoneinfo city utc_time).1
      = (convert_time_endpoint post2 tsNano env now geocode timezone_at zoneinfo city utc_time).1 := by
  constructor
  · cases h : post (buildLokiPayload tsNano env message endpointLabel level labels) <;>
      simp [send_log_to_loki, h]
  · rfl

/-- C7: converting UTC 12:00:00 on the winter date 2025-02-04 to
`Asia/Yekaterinburg` yields wall-clock 17:00:00 at UTC+5, both in the
offset-qualified `converted_time` and in the formatted
`converted_time_local`. -/
theorem convert_yekaterinburg_winter :
    convert_time nowFix
      (fun _ : String => (Except.ok (some ()) : Except GeoException (Option Unit)))
      (fun _ => some "Asia/Yekaterinburg") (fun _ => Asia_Yekaterinburg)
      "Екатеринбург" (some "2025-02-04 12:00:00")
    = .ok [("utc_time", "2025-02-04T12:00:00+00:00"),
           ("city", "Екатеринбург"),
           ("timezone", "Asia/Yekaterinburg"),
           ("converted_time", "2025-02-04T17:00:00+05:00"),
           ("converted_time_local", "2025-02-04 17:00:00 +05")]
    ∧ (PyDatetime.astimezone ⟨2025, 2, 4, 12, 0, 0, 0, some utcTZ⟩ Asia_Yekaterinburg)
      = ⟨2025, 2, 4, 17, 0, 0, 0, some Asia_Yekaterinburg⟩ := by
  refine ⟨by decide, by decide⟩

/-- C9 counterexample: for the caller-supplied place query `" Moscow "`
the successful response's `city` field holds the trimmed string
`"Moscow"`, not the original query. -/
theorem convert_time_city_not_original :
    convert_time nowFix
      (fun _ : String => (Except.ok (some ()) : Except GeoException (Option Unit)))
      (fun _ => some "Europe/Moscow") (fun _ => ⟨180, "MSK"⟩) " Moscow " none
    = .ok [("utc_time", "2025-06-15T09:30:12.123456+00:00"),
           ("city", "Moscow"),
           ("timezone", "Europe/Moscow"),
           ("converted_time", "2025-06-15T12:30:12.123456+03:00"),
           ("converted_time_local", "2025-06-15 12:30:12 MSK")]
    ∧ ("Moscow" : String) ≠ " Moscow " := by
  refine ⟨by decide, by decide⟩

/-- C9 (amended): every successful `/time/convert` response consists of
exactly the fields `utc_time`, `city`, `timezone`, `converted_time` and
`converted_time_local`, in that order, where `city` is the caller's
place query trimmed of surrounding whitespace, `timezone` is the
resolved zone, `converted_time` is the ISO-8601 rendering of the
localized instant (always offset-qualified) and `converted_time_local`
its zone-abbreviation formatting. -/
theorem convert_time_response_shape {α : Type} (now : PyDatetime)
    (geocode : String → Except GeoException (Option α)) (timezone_at : α → Option String)
    (zoneinfo : String → TZInfo) (city : String) (utc_time : Option String)
    (resp : List (String × String))
    (h : convert_time now geocode timezone_at zoneinfo city utc_time = .ok resp) :
    resp.map Prod.fst = ["utc_time", "city", "timezone", "converted_time", "converted_time_local"]
    ∧ ∃ (dt_utc : PyDatetime) (tz_name : String),
        city_to_timezone geocode timezone_at city = .ok tz_name
        ∧ resp = [("utc_time", dt_utc.isoformat),
                  ("city", pyStrip city),
                  ("timezone", tz_name),
                  ("converted_time", (dt_utc.astimezone (zoneinfo tz_name)).isoformat),
                  ("converted_time_local", (dt_utc.astimezone (zoneinfo tz_name)).strftimeLocal)]
        ∧ (dt_utc.astimezone (zoneinfo tz_name)).tzinfo.isSome = true := by
  have hmain : ∃ (dt_utc : PyDatetime) (tz_name : String),
      city_to_timezone geocode timezone_at city = .ok tz_name
      ∧ resp = [("utc_time", dt_utc.isoformat),
                ("city", pyStrip city),
                ("timezone", tz_name),
                ("converted_time", (dt_utc.astimezone (zoneinfo tz_name)).isoformat),
                ("converted_time_local", (dt_utc.astimezone (zoneinfo tz_name)).strftimeLocal)]
      ∧ (dt_utc.astimezone (zoneinfo tz_name)).tzinfo.isSome = true := by
    unfold convert_time at h
    rcases hdt : resolve_utc_time now utc_time with e | dt_utc
    · rw [hdt] at h
      simp [Bind.bind, Except.bind] at h
    · rw [hdt] at h
      rcases hc : city_to_timezone geocode timezone_at city with e | tz_name
      · rw [hc] at h
        simp [Bind.bind, Except.bind] at h
      · rw [hc] at h
        simp only [Bind.bind, Except.bind, Pure.pure, Except.pure, Except.ok.injEq] at h
        exact ⟨dt_utc, tz_name, rfl, h.symm, by simp [PyDatetime.astimezone]⟩
  refine ⟨?_, hmain⟩
  obtain ⟨dt_utc, tz_name, _, hresp, _⟩ := hmain
  rw [hresp]
  rfl

/-- Witness for `convert_time_response_shape` on a concrete successful
request for `"Казань"` at UTC 2025-02-04 12:00:00 with a UTC+5 zone. -/
theorem convert_time_response_shape_witness :
    ([("utc_time", "2025-02-04T12:00:00+00:00"),
      ("city", "Казань"),
      ("timezone", "Asia/Yekaterinburg"),
      ("converted_time", "2025-02-04T17:00:00+05:00"),
      ("converted_time_local", "2025-02-04 17:00:00 +05")] : List (String × String)).map Prod.fst
      = ["utc_time", "city", "timezone", "converted_time", "converted_time_local"]
    ∧ ∃ (dt_utc : PyDatetime) (tz_name : String),
        city_to_timezone
          (fun _ : String => (Except.ok (some ()) : Except GeoException (Option Unit)))
          (fun _ => some "Asia/Yekaterinburg") "Казань" = .ok tz_name
        ∧ ([("utc_time", "2025-02-04T12:00:00+00:00"),
            ("city", "Казань"),
            ("timezone", "Asia/Yekaterinburg"),
            ("converted_time", "2025-02-04T17:00:00+05:00"),
            ("converted_time_local", "2025-02-04 17:00:00 +05")] : List (String × String))
          = [("utc_time", dt_utc.isoformat),
             ("city", pyStrip "Казань"),
             ("timezone", tz_name),
             ("converted_time", (dt_utc.astimezone (Asia_Yekaterinburg)).isoformat),
             ("converted_time_local", (dt_utc.astimezone (Asia_Yekaterinburg)).strftimeLocal)]
        ∧ (dt_utc.astimezone (Asia_Yekaterinburg)).tzinfo.isSome = true :=
  convert_time_response_shape nowFix
    (fun _ : String => (Except.ok (some ()) : Except GeoException (Option Unit)))
    (fun _ => some "Asia/Yekaterinburg") (fun _ => Asia_Yekaterinburg)
    "Казань" (some "2025-02-04 12:00:00") _ (by decide)

/-! ### Helper lemmas for the parser claims -/

/-- `firstSome` over a block of mapped strptime attempts equals the
source's `firstParse` loop, falling through to the remaining
attempts. -/
theorem firstSome_formats (fmts : List (List Directive)) (cs : List Char)
    (g : PyDatetime → PyDatetime) (rest : List (Option PyDatetime)) :
    firstSome ((fmts.map fun f => (strptimeChars f cs).map g) ++ rest) =
      (match firstParse fmts cs with
       | some dt => some (g dt)
       | none => firstSome rest) := by
  induction fmts with
  | nil => simp [firstParse]
  | cons f fs ih =>
    simp only [List.map_cons, List.cons_append, firstParse]
    cases h : strptimeChars f cs with
    | none => simpa [firstSome] using ih
    | some dt => simp [firstSome]

/-- `replaceZ` distributes over concatenation. -/
theorem replaceZ_append (a b : List Char) :
    replaceZ (a ++ b) = replaceZ a ++ replaceZ b := by
  induction a with
  | nil => rfl
  | cons c t ih => simp [replaceZ, ih]

/-- `replaceZ` leaves a `Z`-free list unchanged. -/
theorem replaceZ_of_no_Z (a : List Char) (h : 'Z' ∉ a) : replaceZ a = a := by
  induction a with
  | nil => rfl
  | cons c t ih =>
    rw [List.mem_cons, not_or] at h
    rw [replaceZ, if_neg (fun e => h.1 e.symm), ih h.2]
    rfl

/-- A strptime directive other than the three time fields leaves the
time fields of the accumulator unchanged. -/
theorem stepDirective_preserves_time (dir : Directive) (acc acc2 : StrpAcc)
    (cs rest : List Char) (h : stepDirective dir acc cs = some (acc2, rest))
    (h1 : dir ≠ .hour2) (h2 : dir ≠ .minute2) (h3 : dir ≠ .second2) :
    acc2.hh = acc.hh ∧ acc2.mm = acc.mm ∧ acc2.ss = acc.ss := by
  cases dir with
  | hour2 => exact absurd rfl h1
  | minute2 => exact absurd rfl h2
  | second2 => exact absurd rfl h3
  | dash =>
    cases cs with
    | nil => cases h
    | cons c r =>
      simp only [stepDirective] at h
      split at h
      · cases h; exact ⟨rfl, rfl, rfl⟩
      · cases h
  | colon =>
    cases cs with
    | nil => cases h
    | cons c r =>
      simp only [stepDirective] at h
      split at h
      · cases h; exact ⟨rfl, rfl, rfl⟩
      · cases h
  | sepT =>
    cases cs with
    | nil => cases h
    | cons c r =>
      simp only [stepDirective] at h
      split at h
      · cases h; exact ⟨rfl, rfl, rfl⟩
      · cases h
  | ws =>
    cases cs with
    | nil => cases h
    | cons c r =>
      simp only [stepDirective] at h
      split at h
      · cases h; exact ⟨rfl, rfl, rfl⟩
      · cases h
  | year4 =>
    simp only [stepDirective, Option.map_eq_some'] at h
    obtain ⟨p, _, heq⟩ := h
    cases heq
    exact ⟨rfl, rfl, rfl⟩
  | month2 =>
    simp only [stepDirective, Option.map_eq_some'] at h
    obtain ⟨p, _, heq⟩ := h
    cases heq
    exact ⟨rfl, rfl, rfl⟩
  | day2 =>
    simp only [stepDirective, Option.map_eq_some'] at h
    obtain ⟨p, _, heq⟩ := h
    cases heq
    exact ⟨rfl, rfl, rfl⟩

/-- Running a format with no time-field directive leaves the time
fields of the accumulator at their strptime defaults. -/
theorem runDirectives_preserves_time (ds : List Directive) (acc a : StrpAcc) (cs : List Char)
    (hds : ∀ dir ∈ ds, dir ≠ Directive.hour2 ∧ dir ≠ Directive.minute2 ∧ dir ≠ Directive.second2)
    (h : runDirectives ds acc cs = some a) :
    a.hh = acc.hh ∧ a.mm = acc.mm ∧ a.ss = acc.ss := by
  induction ds generalizing acc cs with
  | nil =>
    cases cs with
    | nil => cases h; exact ⟨rfl, rfl, rfl⟩
    | cons c r => cases h
  | cons d ds ih =>
    simp only [runDirectives] at h
    rcases hs : stepDirective d acc cs with _ | pr
    · rw [hs] at h; cases h
    · rw [hs] at h
      obtain ⟨acc2, rest⟩ := pr
      obtain ⟨hd1, hd2, hd3⟩ := hds d (by simp)
      obtain ⟨e1, e2, e3⟩ := stepDirective_preserves_time d acc acc2 cs rest hs hd1 hd2 hd3
      obtain ⟨f1, f2, f3⟩ := ih acc2 rest (fun dir hdir => hds dir (by simp [hdir])) h
      exact ⟨f1.trans e1, f2.trans e2, f3.trans e3⟩

/-- A date-only strptime match leaves the time at midnight with zero
microseconds and no tzinfo. -/
theorem strptime_dateOnly_midnight (cs : List Char) (dt : PyDatetime)
    (h : strptimeChars fmtDateOnly cs = some dt) :
    dt.hour = 0 ∧ dt.minute = 0 ∧ dt.second = 0 ∧ dt.microsecond = 0 ∧ dt.tzinfo = none := by
  unfold strptimeChars at h
  rcases hr : runDirectives fmtDateOnly {} cs with _ | a
  · rw [hr] at h; cases h
  · simp only [hr] at h
    have hpre := runDirectives_preserves_time fmtDateOnly {} a cs
      (by
        intro dir hdir
        simp only [fmtDateOnly, List.mem_cons, List.not_mem_nil, or_false] at hdir
        rcases hdir with rfl | rfl | rfl | rfl | rfl <;> exact ⟨by decide, by decide, by decide⟩)
      hr
    by_cases hv : (1 ≤ a.y && a.d ≤ daysInMonth a.y a.m && a.ss ≤ 59) = true
    · rw [if_pos hv] at h
      injection h with h2
      subst h2
      exact ⟨hpre.1, hpre.2.1, hpre.2.2, rfl, rfl⟩
    · rw [if_neg hv] at h
      cases h

/-! ### Claims about the time parser -/

/-- C1 counterexample: the claim's "T-separated, with and without
seconds" would make `2025-02-04T12:00` match a fixed format, but the
source's `UTC_TIME_FORMATS` matches none of its entries on that input
(it is handled by the ISO fallback instead, with the same UTC
result). -/
theorem fixed_formats_lack_T_without_seconds :
    firstParse UTC_TIME_FORMATS "2025-02-04T12:00".toList = none
    ∧ firstParse claimFixedFormats "2025-02-04T12:00".toList
        = some ⟨2025, 2, 4, 12, 0, 0, 0, none⟩
    ∧ parse_utc_time nowFix "2025-02-04T12:00"
        = .ok ⟨2025, 2, 4, 12, 0, 0, 0, some utcTZ⟩ :=
  ⟨by decide, by decide, by decide⟩

/-- C1 (amended): for every non-empty time string, `_parse_utc_time`
equals the ordered short-circuiting attempt sequence — the fixed
date+time formats of `UTC_TIME_FORMATS` (space-separated with and
without seconds, T-separated with seconds) assumed UTC, then date-only,
then the time-only formats anchored to the current UTC calendar date,
then the strict ISO fallback — failing with the 422 error listing
example formats exactly when every attempt fails; a date-only match is
midnight, and a time-only match keeps the current date with seconds
and microseconds zeroed unless given. -/
theorem parse_utc_time_ordered_fallback (now : PyDatetime) (value : String) :
    (parse_utc_time now value =
      match firstSome (parseAttempts now (pyStripChars value.toList)) with
      | some dt => .ok dt
      | none => .error (.httpException 422 parseErrorDetail))
    ∧ (∀ dt, strptimeChars fmtDateOnly (pyStripChars value.toList) = some dt →
        dt.hour = 0 ∧ dt.minute = 0 ∧ dt.second = 0 ∧ dt.microsecond = 0 ∧ dt.tzinfo = none)
    ∧ (∀ dt, firstParse UTC_TIME_FORMATS (pyStripChars value.toList) = none →
        firstParse UTC_TIME_ONLY_FORMATS (pyStripChars value.toList) = some dt →
        parse_utc_time now value = .ok (anchorTimeOnly now dt)) := by
  have hdata : value.toList = value.data := rfl
  refine ⟨?_, fun dt h => strptime_dateOnly_midnight _ dt h, fun dt h1 h2 => ?_⟩
  · rw [hdata]
    simp only [parse_utc_time, parseAttempts]
    rw [List.append_assoc, firstSome_formats, firstSome_formats]
    rcases h1 : firstParse UTC_TIME_FORMATS (pyStripChars value.data) with _ | dt1
    · rcases h2 : firstParse UTC_TIME_ONLY_FORMATS (pyStripChars value.data) with _ | dt2
      · rcases h3 : isoFallbackChars (pyStripChars value.data) with _ | dt3
        · simp [h1, h2, h3, firstSome]
        · simp [h1, h2, h3, firstSome]
      · simp [h1, h2, firstSome, anchorTimeOnly]
    · simp [h1, firstSome]
  · rw [hdata] at h1 h2
    simp [parse_utc_time, h1, h2, anchorTimeOnly]

/-- Witness for `parse_utc_time_ordered_fallback`: the attempt-sequence
equation at `2025-02-04`, the midnight reading of that date-only input,
and the anchoring of the time-only input `15:00` to the current UTC
date. -/
theorem parse_utc_time_ordered_fallback_witness :
    (parse_utc_time nowFix "2025-02-04" =
      match firstSome (parseAttempts nowFix (pyStripChars "2025-02-04".toList)) with
      | some dt => .ok dt
      | none => .error (.httpException 422 parseErrorDetail))
    ∧ ((⟨2025, 2, 4, 0, 0, 0, 0, none⟩ : PyDatetime).hour = 0
        ∧ (⟨2025, 2, 4, 0, 0, 0, 0, none⟩ : PyDatetime).minute = 0
        ∧ (⟨2025, 2, 4, 0, 0, 0, 0, none⟩ : PyDatetime).second = 0
        ∧ (⟨2025, 2, 4, 0, 0, 0, 0, none⟩ : PyDatetime).microsecond = 0
        ∧ (⟨2025, 2, 4, 0, 0, 0, 0, none⟩ : PyDatetime).tzinfo = none)
    ∧ parse_utc_time nowFix "15:00"
        = .ok (anchorTimeOnly nowFix ⟨1900, 1, 1, 15, 0, 0, 0, none⟩) :=
  ⟨(parse_utc_time_ordered_fallback nowFix "2025-02-04").1,
   (parse_utc_time_ordered_fallback nowFix "2025-02-04").2.1 _ (by decide),
   (parse_utc_time_ordered_fallback nowFix "15:00").2.2 _ (by decide) (by decide)⟩

/-- C2: a fixed-format match is assigned UTC offset zero; a time-only
match inherits the aware UTC "now"; an ISO-fallback result keeps an
explicitly given offset as-is; a naive ISO-fallback result is assigned
UTC; and a trailing literal `Z` (on a string containing no other `Z`)
is parsed exactly as the UTC-zero offset suffix `+00:00`. -/
theorem parse_utc_time_offset_semantics (now : PyDatetime) (value : String) (s : List Char) :
    (∀ dt, firstParse UTC_TIME_FORMATS (pyStripChars value.toList) = some dt →
      parse_utc_time now value = .ok (dt.withTZ utcTZ))
    ∧ (∀ dt, firstParse UTC_TIME_FORMATS (pyStripChars value.toList) = none →
      firstParse UTC_TIME_ONLY_FORMATS (pyStripChars value.toList) = some dt →
      now.tzinfo = some utcTZ →
      ∃ r, parse_utc_time now value = .ok r ∧ r.tzinfo = some utcTZ)
    ∧ (∀ dt tz, firstParse UTC_TIME_FORMATS (pyStripChars value.toList) = none →
      firstParse UTC_TIME_ONLY_FORMATS (pyStripChars value.toList) = none →
      isoFallbackChars (pyStripChars value.toList) = some dt → dt.tzinfo = some tz →
      parse_utc_time now value = .ok dt)
    ∧ (∀ dt, firstParse UTC_TIME_FORMATS (pyStripChars value.toList) = none →
      firstParse UTC_TIME_ONLY_FORMATS (pyStripChars value.toList) = none →
      isoFallbackChars (pyStripChars value.toList) = some dt → dt.tzinfo = none →
      parse_utc_time now value = .ok (dt.withTZ utcTZ))
    ∧ ('Z' ∉ s → isoFallbackChars (s ++ ['Z']) = fromisoChars (s ++ "+00:00".toList)) := by
  have hdata : value.toList = value.data := rfl
  refine ⟨fun dt h => ?_, fun dt h1 h2 hnow => ?_, fun dt tz h1 h2 h3 htz => ?_,
    fun dt h1 h2 h3 htz => ?_, fun hZ => ?_⟩
  · rw [hdata] at h
    simp [parse_utc_time, h]
  · rw [hdata] at h1 h2
    refine ⟨anchorTimeOnly now dt, by simp [parse_utc_time, h1, h2, anchorTimeOnly], ?_⟩
    simpa [anchorTimeOnly] using hnow
  · rw [hdata] at h1 h2 h3
    simp [parse_utc_time, h1, h2, h3, htz]
  · rw [hdata] at h1 h2 h3
    simp [parse_utc_time, h1, h2, h3, htz]
  · unfold isoFallbackChars
    rw [replaceZ_append, replaceZ_of_no_Z s hZ]
    have hz : replaceZ ['Z'] = "+00:00".toList := by decide
    rw [hz]

/-- Witness for `parse_utc_time_offset_semantics` on the four input
classes and the `Z`-suffix equation. -/
theorem parse_utc_time_offset_semantics_witness :
    parse_utc_time nowFix "2025-02-04 07:30:00"
      = .ok (PyDatetime.withTZ ⟨2025, 2, 4, 7, 30, 0, 0, none⟩ utcTZ)
    ∧ (∃ r, parse_utc_time nowFix "23:59" = .ok r ∧ r.tzinfo = some utcTZ)
    ∧ parse_utc_time nowFix "2025-02-04T12:00:00+05:00"
      = .ok ⟨2025, 2, 4, 12, 0, 0, 0, some ⟨300, "UTC+05:00"⟩⟩
    ∧ parse_utc_time nowFix "2025-02-04 12:00:00.500000"
      = .ok (PyDatetime.withTZ ⟨2025, 2, 4, 12, 0, 0, 500000, none⟩ utcTZ)
    ∧ isoFallbackChars ("2025-02-04T12:00:00".toList ++ ['Z'])
      = fromisoChars ("2025-02-04T12:00:00".toList ++ "+00:00".toList) :=
  ⟨(parse_utc_time_offset_semantics nowFix "2025-02-04 07:30:00" []).1 _ (by decide),
   (parse_utc_time_offset_semantics nowFix "23:59" []).2.1 ⟨1900, 1, 1, 23, 59, 0, 0, none⟩
     (by decide) (by decide) rfl,
   (parse_utc_time_offset_semantics nowFix "2025-02-04T12:00:00+05:00" []).2.2.1 _
     ⟨300, "UTC+05:00"⟩ (by decide) (by decide) (by decide) (by decide),
   (parse_utc_time_offset_semantics nowFix "2025-02-04 12:00:00.500000" []).2.2.2.1 _
     (by decide) (by decide) (by decide) (by decide),
   (parse_utc_time_offset_semantics nowFix "x" "2025-02-04T12:00:00".toList).2.2.2.2
     (by decide)⟩

/-- C3: every datetime the parser returns is aware — whenever
`_parse_utc_time` succeeds (with the aware UTC "now" the endpoint
passes), the result carries a tzinfo. -/
theorem parse_utc_time_always_aware (now : PyDatetime) (value : String) (dt : PyDatetime)
    (hnow : now.tzinfo = some utcTZ) (hok : parse_utc_time now value = .ok dt) :
    dt.tzinfo.isSome = true := by
  simp only [parse_utc_time] at hok
  rcases h1 : firstParse UTC_TIME_FORMATS (pyStripChars value.toList) with _ | dt1 <;>
    rw [h1] at hok
  · rcases h2 : firstParse UTC_TIME_ONLY_FORMATS (pyStripChars value.toList) with _ | dt2 <;>
      rw [h2] at hok
    · rcases h3 : isoFallbackChars (pyStripChars value.toList) with _ | dt3 <;>
        rw [h3] at hok
      · cases hok
      · rcases h4 : dt3.tzinfo with _ | tz
        · simp only [h4, Option.isSome_none, Bool.false_eq_true, if_false,
            Except.ok.injEq] at hok
          subst hok
          simp [PyDatetime.withTZ]
        · simp only [h4, Option.isSome_some, if_true, Except.ok.injEq] at hok
          subst hok
          simp [h4]
    · simp only [Except.ok.injEq] at hok
      subst hok
      simp [hnow]
  · simp only [Except.ok.injEq] at hok
    subst hok
    simp [PyDatetime.withTZ]

/-- Witness for `parse_utc_time_always_aware` at the time-only input
`15:00`. -/
theorem parse_utc_time_always_aware_witness :
    ({ nowFix with hour := 15, minute := 0, second := 0, microsecond := 0 } : PyDatetime).tzinfo.isSome = true :=
  parse_utc_time_always_aware nowFix "15:00"
    { nowFix with hour := 15, minute := 0, second := 0, microsecond := 0 } rfl (by decide)

end ServerTimeAPI
